import Mathlib

/-!
Verification development for the ARGON analysis and transfer server
(`argon-server.js`) and the VideoEditor beat-detection pipeline
(`src/components/pipeline/VideoEditor.jsx`).

The JavaScript source is shallowly embedded: machine numbers become exact
rationals, the in-memory job `Map` and the durable job directory become
functions `String → Option JobRecord`, the `Math.sin` float routine becomes
an abstract parameter `sinf : ℚ → ℚ`, and asynchronous callback firing is
made explicit as a list of callback events folded over the job record.
-/

namespace Argon

/-- JSON values, the payloads exchanged with the model backend
(`JSON.parse` results in `proxyPost` and `parseBody`). -/
inductive JsonVal : Type where
  | null : JsonVal
  | bool (b : Bool) : JsonVal
  | num (q : ℚ) : JsonVal
  | str (s : String) : JsonVal
  | arr (elems : List JsonVal) : JsonVal
  | obj (fields : List (String × JsonVal)) : JsonVal

/-- Field lookup in a JSON object literal (JavaScript property access). -/
def lookupField : List (String × JsonVal) → String → Option JsonVal
  | [], _ => none
  | (k, v) :: rest, key => if k = key then some v else lookupField rest key

/-- Job status strings from `argon-server.js`:
`'queued' | 'running' | 'complete' | 'error'`. -/
inductive JobStatus : Type where
  | queued | running | complete | error
deriving DecidableEq, Repr

/-- The ten job type tags created by the route handlers
(`'analyze:motion'`, …, `'generate:pose'`). -/
inductive JobType : Type where
  | analyzeMotion | analyzeExpression | analyzeFace | analyzeSegment
  | transferPose | transferExpression | transferSequence
  | generateImage | generateVideo | generatePose
deriving DecidableEq, Repr

/-- The `type` string stored on a job record. -/
def JobType.tag : JobType → String
  | .analyzeMotion => "analyze:motion"
  | .analyzeExpression => "analyze:expression"
  | .analyzeFace => "analyze:face"
  | .analyzeSegment => "analyze:segment"
  | .transferPose => "transfer:pose"
  | .transferExpression => "transfer:expression"
  | .transferSequence => "transfer:sequence"
  | .generateImage => "generate:image"
  | .generateVideo => "generate:video"
  | .generatePose => "generate:pose"

-- ── Mock data builders (`buildMockPoseKeyframe`, `buildMockExpressionAtTime`,
-- `buildMockMotionTrack`, `buildMockFaceLandmarks`).  `Math.sin` is taken as
-- an abstract parameter `sinf : ℚ → ℚ`; every other number is exact. ──

/-- The helper `w(freq, amp) = (Math.sin(t*freq)*0.5 + 0.5)*amp` from
`buildMockExpressionAtTime`. -/
def wave (sinf : ℚ → ℚ) (t freq amp : ℚ) : ℚ :=
  (sinf (t * freq) * 0.5 + 0.5) * amp

/-- The derived `emotionVector` of a mock expression frame. -/
structure EmotionVector where
  valence : ℚ
  arousal : ℚ
  dominance : ℚ
deriving Repr

/-- A mock expression frame (the object literal returned by
`buildMockExpressionAtTime`). -/
structure MockExpression where
  jaw : ℚ
  browInner : ℚ
  browOuter : ℚ
  eyeWide : ℚ
  eyeClose : ℚ
  mouthOpen : ℚ
  mouthCornerUp : ℚ
  mouthCornerDown : ℚ
  noseFlair : ℚ
  cheekRaise : ℚ
  emotionVector : EmotionVector
  intensity : ℚ
deriving Repr

/-- `buildMockExpressionAtTime(t)` from `argon-server.js`. -/
def buildMockExpressionAtTime (sinf : ℚ → ℚ) (t : ℚ) : MockExpression :=
  { jaw := wave sinf t 0.80 0.30
  , browInner := wave sinf t 1.20 0.40
  , browOuter := wave sinf t 0.70 0.35
  , eyeWide := wave sinf t 0.50 0.20
  , eyeClose := wave sinf t 0.30 0.15
  , mouthOpen := wave sinf t 0.80 0.40
  , mouthCornerUp := wave sinf t 0.60 0.50
  , mouthCornerDown := 0
  , noseFlair := wave sinf t 1.00 0.15
  , cheekRaise := wave sinf t 0.60 0.30
  , emotionVector :=
      { valence := sinf (t * 0.4) * 0.5 + 0.3
      , arousal := wave sinf t 0.50 0.80
      , dominance := 0.6 }
  , intensity := wave sinf t 0.90 0.85 }

/-- One named body joint `{ x, y, conf }` of the mock pose. -/
structure JointPoint where
  x : ℚ
  y : ℚ
  conf : ℚ
deriving Repr

/-- The twelve joints of the `body` object in `buildMockPoseKeyframe`. -/
structure MockPoseBody where
  nose : JointPoint
  neck : JointPoint
  leftShoulder : JointPoint
  rightShoulder : JointPoint
  leftElbow : JointPoint
  rightElbow : JointPoint
  leftWrist : JointPoint
  rightWrist : JointPoint
  leftHip : JointPoint
  rightHip : JointPoint
  leftKnee : JointPoint
  rightKnee : JointPoint
deriving Repr

/-- A mock pose keyframe.  The source also carries constant
`hands: {left:null, right:null}` and `face: null` members, which hold no
information and are omitted here. -/
structure MockPoseKeyframe where
  body : MockPoseBody
  confidence : ℚ
deriving Repr

/-- `buildMockPoseKeyframe(t)` from `argon-server.js`:
gentle sway `Math.sin(t*1.2)*0.05` applied to nose and (halved) neck. -/
def buildMockPoseKeyframe (sinf : ℚ → ℚ) (t : ℚ) : MockPoseKeyframe :=
  let sway := sinf (t * 1.2) * 0.05
  { body :=
      { nose := { x := 0.50 + sway, y := 0.14, conf := 0.98 }
      , neck := { x := 0.50 + sway * 0.5, y := 0.22, conf := 0.95 }
      , leftShoulder := { x := 0.38, y := 0.30, conf := 0.90 }
      , rightShoulder := { x := 0.62, y := 0.30, conf := 0.90 }
      , leftElbow := { x := 0.30, y := 0.48, conf := 0.85 }
      , rightElbow := { x := 0.70, y := 0.48, conf := 0.85 }
      , leftWrist := { x := 0.28, y := 0.62, conf := 0.80 }
      , rightWrist := { x := 0.72, y := 0.62, conf := 0.80 }
      , leftHip := { x := 0.42, y := 0.56, conf := 0.88 }
      , rightHip := { x := 0.58, y := 0.56, conf := 0.88 }
      , leftKnee := { x := 0.41, y := 0.74, conf := 0.82 }
      , rightKnee := { x := 0.59, y := 0.74, conf := 0.82 } }
  , confidence := 0.92 }

/-- One frame of the mock motion track (`faceLandmarks` is constantly
`null` in the source and is omitted). -/
structure MockMotionFrame where
  t : ℚ
  frameIndex : ℕ
  pose : MockPoseKeyframe
  expression : MockExpression
deriving Repr

/-- The mock `MotionTrack` object (`faceTrack: []` and
`segmentMask: null` are constant in the source and omitted). -/
structure MockMotionTrack where
  id : String
  sourceRef : String
  duration : ℚ
  fps : ℕ
  frames : List MockMotionFrame
  expressionTrack : List MockExpression
  poseTrack : List MockPoseKeyframe
  mock : Bool
deriving Repr

/-- The frame generated at index `i` inside `buildMockMotionTrack`. -/
def mockFrameAt (sinf : ℚ → ℚ) (fps : ℕ) (i : ℕ) : MockMotionFrame :=
  let t : ℚ := (i : ℚ) / (fps : ℚ)
  { t := t
  , frameIndex := i
  , pose := buildMockPoseKeyframe sinf t
  , expression := buildMockExpressionAtTime sinf t }

/-- `buildMockMotionTrack(id, fps)` from `argon-server.js`:
`duration = 4`, `frameCount = duration * fps`, frames at `t = i / fps`. -/
def buildMockMotionTrack (sinf : ℚ → ℚ) (id : String) (fps : ℕ) : MockMotionTrack :=
  let frameCount := 4 * fps
  let frames := (List.range frameCount).map (mockFrameAt sinf fps)
  { id := id
  , sourceRef := "mock"
  , duration := 4
  , fps := fps
  , frames := frames
  , expressionTrack := frames.map MockMotionFrame.expression
  , poseTrack := frames.map MockMotionFrame.pose
  , mock := true }

/-- The mock FaceMesh payload of `buildMockFaceLandmarks` (the 52
blendshape members of the source object literal are flattened to
name-value pairs). -/
structure MockFaceLandmarks where
  landmarks : List (ℚ × ℚ × ℚ)
  leftEye : List ℕ
  rightEye : List ℕ
  mouth : List ℕ
  nose : List ℕ
  jawline : List ℕ
  blendshapes : List (String × ℚ)
  mock : Bool
deriving Repr

/-- `buildMockFaceLandmarks()` from `argon-server.js`. -/
def buildMockFaceLandmarks : MockFaceLandmarks :=
  { landmarks := List.replicate 468 (0.5, 0.5, 0)
  , leftEye := [33, 133, 160, 159, 158, 144, 145, 153]
  , rightEye := [362, 263, 387, 386, 385, 373, 374, 380]
  , mouth := [61, 185, 40, 39, 37, 267, 269, 270, 291]
  , nose := [1, 2, 98, 327]
  , jawline := [10, 338, 297, 332, 284, 251, 389, 356, 454, 323, 361, 288]
  , blendshapes :=
      [ ("browDownLeft", 0), ("browDownRight", 0), ("browInnerUp", 0)
      , ("browOuterUpLeft", 0), ("browOuterUpRight", 0)
      , ("cheekPuff", 0), ("cheekSquintLeft", 0), ("cheekSquintRight", 0)
      , ("eyeBlinkLeft", 0), ("eyeBlinkRight", 0)
      , ("eyeLookDownLeft", 0), ("eyeLookDownRight", 0)
      , ("eyeLookInLeft", 0), ("eyeLookInRight", 0)
      , ("eyeLookOutLeft", 0), ("eyeLookOutRight", 0)
      , ("eyeLookUpLeft", 0), ("eyeLookUpRight", 0)
      , ("eyeSquintLeft", 0), ("eyeSquintRight", 0)
      , ("eyeWideLeft", 0), ("eyeWideRight", 0)
      , ("jawForward", 0), ("jawLeft", 0), ("jawOpen", 0), ("jawRight", 0)
      , ("mouthClose", 0), ("mouthDimpleLeft", 0), ("mouthDimpleRight", 0)
      , ("mouthFrownLeft", 0), ("mouthFrownRight", 0), ("mouthFunnel", 0)
      , ("mouthLeft", 0), ("mouthLowerDownLeft", 0), ("mouthLowerDownRight", 0)
      , ("mouthPressLeft", 0), ("mouthPressRight", 0), ("mouthPucker", 0)
      , ("mouthRight", 0), ("mouthRollLower", 0), ("mouthRollUpper", 0)
      , ("mouthShrugLower", 0), ("mouthShrugUpper", 0)
      , ("mouthSmileLeft", 0), ("mouthSmileRight", 0)
      , ("mouthStretchLeft", 0), ("mouthStretchRight", 0)
      , ("mouthUpperUpLeft", 0), ("mouthUpperUpRight", 0)
      , ("noseSneerLeft", 0), ("noseSneerRight", 0)
      , ("tongueOut", 0) ]
  , mock := true }

-- ── Job records and the job store (`createJob`, `updateJob`) ──

/-- The `result` member of a job record: `null` initially, a parsed JSON
payload on backend success, or one of the three synthetic mock payloads. -/
inductive ResultVal : Type where
  | null : ResultVal
  | json (j : JsonVal) : ResultVal
  | motionTrack (m : MockMotionTrack) : ResultVal
  | expressionList (l : List MockExpression) : ResultVal
  | faceLandmarks (f : MockFaceLandmarks) : ResultVal

/-- A job record as kept in the in-memory `jobs` map and written to
`JOB_DIR/<id>.json` (per-type meta members such as `fps` are ignored by
the job machinery and omitted). -/
structure JobRecord where
  id : String
  type : JobType
  status : JobStatus
  result : ResultVal
  error : Option String
  mock : Bool
  createdAt : ℤ
  completedAt : Option ℤ

/-- A patch argument of `updateJob`; `none` marks a member absent from the
patch object (`Object.assign` leaves the old value in place). -/
structure JobPatch where
  status : Option JobStatus := none
  result : Option ResultVal := none
  error : Option String := none
  mock : Option Bool := none

/-- `Object.assign(job, patch)`: present patch members overwrite. -/
def applyPatch (j : JobRecord) (p : JobPatch) : JobRecord :=
  { j with
    status := p.status.getD j.status
    result := p.result.getD j.result
    error := match p.error with
      | some s => some s
      | none => j.error
    mock := p.mock.getD j.mock }

/-- A patch is terminal when it sets `status` to `'complete'` or
`'error'` (the test on `patch.status` inside `updateJob`). -/
def terminalStatusPatch (p : JobPatch) : Prop :=
  p.status = some .complete ∨ p.status = some .error

instance (p : JobPatch) : Decidable (terminalStatusPatch p) := by
  unfold terminalStatusPatch; infer_instance

/-- The record produced by `createJob(type)`:
`{ id, type, status:'queued', result:null, error:null, mock:false, createdAt }`. -/
def createJobRecord (ty : JobType) (id : String) (now : ℤ) : JobRecord :=
  { id := id, type := ty, status := .queued, result := .null
  , error := none, mock := false, createdAt := now, completedAt := none }

/-- Pointwise update of a `String`-keyed map. -/
def setJob (m : String → Option JobRecord) (id : String) (r : JobRecord) :
    String → Option JobRecord :=
  fun k => if k = id then some r else m k

/-- `updateJob(id, patch)` from `argon-server.js`, acting on the in-memory
map and the durable store together: unknown ids are a silent no-op; the
patch is assigned onto the record; iff the patch status is terminal,
`completedAt` is stamped and the record is written to disk. -/
def updateJob (jobs disk : String → Option JobRecord) (now : ℤ) (id : String)
    (p : JobPatch) : (String → Option JobRecord) × (String → Option JobRecord) :=
  match jobs id with
  | none => (jobs, disk)
  | some job =>
    let j1 := applyPatch job p
    if terminalStatusPatch p then
      let j2 := { j1 with completedAt := some now }
      (setJob jobs id j2, setJob disk id j2)
    else
      (setJob jobs id j1, disk)

-- ── Backend proxy (`proxyPost`) and per-type terminal callbacks ──

/-- What `proxyPost` does with one invocation: `success` when the response
body parsed as JSON (then `onResult` fires), `failure` otherwise
(`onFallback` with the error message). -/
inductive ProxyOutcome : Type where
  | success (payload : JsonVal) : ProxyOutcome
  | failure (msg : String) : ProxyOutcome

/-- A backend interaction as observed by `proxyPost`: either the request
itself failed (connection error or the 60 s timeout), or a response body
arrived and either parsed as JSON or did not. -/
inductive BackendResponse : Type where
  | networkFailure (msg : String) : BackendResponse
  | httpBody (parsed : Option JsonVal) : BackendResponse

/-- Lines 139–152 of `argon-server.js`: `onResult(JSON.parse(buf))` on any
response whose accumulated body parses as JSON — irrespective of HTTP
status or payload shape — and `onFallback` on a network error, timeout or
parse failure. -/
def classifyResponse : BackendResponse → ProxyOutcome
  | .networkFailure msg => .failure msg
  | .httpBody none => .failure "Unexpected token in JSON"
  | .httpBody (some j) => .success j

/-- True when the proxy invocation failed (the `onFallback` path). -/
def ProxyOutcome.isFailure : ProxyOutcome → Bool
  | .success _ => false
  | .failure _ => true

/-- The `updateJob` patch each handler passes from its `proxyPost`
callbacks, per job type: every handler completes with the payload on
success; on failure the three mockable analyze types complete with a
synthetic result and `mock:true`, segment fails with its dedicated
message, and all transfer and generate types fail with the raw message. -/
def terminalPatch (sinf : ℚ → ℚ) (ty : JobType) (jobId : String) (fps : ℕ) :
    ProxyOutcome → JobPatch
  | .success payload => { status := some .complete, result := some (.json payload) }
  | .failure msg =>
    match ty with
    | .analyzeMotion =>
        { status := some .complete
        , result := some (.motionTrack (buildMockMotionTrack sinf jobId fps))
        , mock := some true }
    | .analyzeExpression =>
        { status := some .complete
        , result := some (.expressionList [buildMockExpressionAtTime sinf 0])
        , mock := some true }
    | .analyzeFace =>
        { status := some .complete
        , result := some (.faceLandmarks buildMockFaceLandmarks)
        , mock := some true }
    | .analyzeSegment =>
        { status := some .error
        , error := some ("Backend unavailable — no mock for segment masks (" ++ msg ++ ")") }
    | _ => { status := some .error, error := some msg }

-- ── Per-job lifecycle.  Each POST handler runs, for one job:
-- `createJob` → `updateJob {status:'running'}` → `proxyPost` whose
-- callback(s) fire later.  The pair carries (in-memory record, durable
-- file contents for this id). ──

/-- The `{ status: 'running' }` patch every handler applies right after
creating the job. -/
def runningPatch : JobPatch := { status := some .running }

/-- One `updateJob` step restricted to a single job id: patch the record,
and iff the patch is terminal stamp `completedAt` and (over)write the
durable file. -/
def applyStoreUpdate (rd : JobRecord × Option JobRecord) (now : ℤ)
    (p : JobPatch) : JobRecord × Option JobRecord :=
  let j1 := applyPatch rd.1 p
  if terminalStatusPatch p then
    let j2 := { j1 with completedAt := some now }
    (j2, some j2)
  else
    (j1, rd.2)

/-- How far a job has progressed: just created, marked running, or marked
running with the listed `proxyPost` callbacks (each with its firing time)
having been applied in order. -/
inductive JobStage : Type where
  | queued : JobStage
  | running : JobStage
  | finished (callbacks : List (ℤ × ProxyOutcome)) : JobStage

/-- Record and durable file right after `createJob` + the running update. -/
def jobAfterRunning (ty : JobType) (jobId : String) (createdAt : ℤ) :
    JobRecord × Option JobRecord :=
  applyStoreUpdate (createJobRecord ty jobId createdAt, none) createdAt runningPatch

/-- The in-memory record and durable file of one job at a given stage of
its life, following `argon-server.js` handler structure exactly. -/
def jobLifecycle (sinf : ℚ → ℚ) (ty : JobType) (jobId : String) (fps : ℕ)
    (createdAt : ℤ) : JobStage → JobRecord × Option JobRecord
  | .queued => (createJobRecord ty jobId createdAt, none)
  | .running => jobAfterRunning ty jobId createdAt
  | .finished cbs =>
      cbs.foldl
        (fun rd c => applyStoreUpdate rd c.1 (terminalPatch sinf ty jobId fps c.2))
        (jobAfterRunning ty jobId createdAt)

-- ── GET /api/jobs/:jobId ──

/-- What the polling route sends back (restricted to the members the
route reads off a record). -/
inductive JobRouteResp : Type where
  | found (status : JobStatus) (result : ResultVal) (error : Option String)
      (mock : Bool) : JobRouteResp
  | notFound : JobRouteResp

/-- The `GET /api/jobs/:jobId` route: serve the in-memory record if
present; else serve the durable file (whose spread `...record` overrides
the `status:'complete'` default with the stored status); else 404. -/
def getJobRoute (mem : Option JobRecord) (dsk : Option JobRecord) : JobRouteResp :=
  match mem with
  | some j => .found j.status j.result j.error j.mock
  | none =>
    match dsk with
    | some r => .found r.status r.result r.error r.mock
    | none => .notFound

-- ── POST /api/transfer/sequence (`handleTransferSequence`) ──

/-- The request body members `handleTransferSequence` destructures
(`none` marks an absent member; `beatCurve`, `frameRange`, `outputFps`
and `style` are forwarded untouched and play no role in the guards). -/
structure TransferSequenceBody where
  characterImage : Option String := none
  trackId : Option String := none
  beatCurve : Option JsonVal := none
  frameRange : Option JsonVal := none
  outputFps : Option ℕ := none
  style : Option String := none

/-- JavaScript truthiness of an optional string member (absent, `null`
and the empty string are falsy). -/
def strTruthy : Option String → Bool
  | none => false
  | some s => s ≠ ""

/-- JavaScript truthiness of a JSON value (`null`, `false`, `0` and the
empty string are falsy). -/
def jsonTruthy : JsonVal → Bool
  | .null => false
  | .bool b => b
  | .num q => q ≠ 0
  | .str s => s ≠ ""
  | .arr _ => true
  | .obj _ => true

/-- JavaScript truthiness of a job `result` member. -/
def resultTruthy : ResultVal → Bool
  | .null => false
  | .json j => jsonTruthy j
  | .motionTrack _ => true
  | .expressionList _ => true
  | .faceLandmarks _ => true

/-- The MotionTrack resolution of `handleTransferSequence`: read
`JOB_DIR/<trackId>.track.json` first — but `if (!motionTrack)` then
tests JS truthiness of the parsed value, so a missing file, an
unparseable file AND a file parsing to a falsy value (`null`, `0`, `""`,
`false`) all fall through to the in-memory job map, which is used only
when the job exists and its `result` is truthy.  The durable track
directory is modelled as `trackFiles : String → Option (Option JsonVal)`
— `none` no file, `some none` an unparseable file, `some (some j)` a
file parsing to `j`. -/
def resolveMotionTrack (trackFiles : String → Option (Option JsonVal))
    (jobs : String → Option JobRecord) (tid : String) : Option ResultVal :=
  let fromDisk : Option ResultVal :=
    match trackFiles tid with
    | some (some j) => if jsonTruthy j then some (.json j) else none
    | _ => none
  match fromDisk with
  | some mt => some mt
  | none =>
    match jobs tid with
    | some j => if resultTruthy j.result then some j.result else none
    | none => none

/-- `motionTrack.frames ? motionTrack.frames.length : 0`. -/
def framesLength : ResultVal → ℕ
  | .json (.obj fields) =>
    match lookupField fields "frames" with
    | some (.arr l) => l.length
    | _ => 0
  | .motionTrack m => m.frames.length
  | _ => 0

/-- An HTTP reply from a POST handler (`jsonOk` carries the immediate
202-style acknowledgement; `jsonError` a status code and message). -/
inductive HttpResp : Type where
  | ok (frameCount : ℕ) : HttpResp
  | err (code : ℕ) (msg : String) : HttpResp

/-- Everything observable from one synchronous run of
`handleTransferSequence`: the HTTP reply, the job record it created (in
its post-`running` state) if any, and whether `proxyPost` was invoked. -/
structure TransferSequenceRun where
  resp : HttpResp
  createdJob : Option JobRecord
  backendCalled : Bool

/-- `handleTransferSequence(body, res)` from `argon-server.js`: validate
`characterImage` and `trackId`, resolve the MotionTrack from disk then
memory, 404 before creating any job when it is absent, otherwise create
the job, answer `queued`, mark it running and call the backend. -/
def handleTransferSequence (body : TransferSequenceBody)
    (trackFiles : String → Option (Option JsonVal))
    (jobs : String → Option JobRecord) (newId : String) (now : ℤ) :
    TransferSequenceRun :=
  if ¬ strTruthy body.characterImage then
    ⟨.err 400 "characterImage required", none, false⟩
  else if ¬ strTruthy body.trackId then
    ⟨.err 400 "trackId required (run /api/analyze/motion first)", none, false⟩
  else
    let tid := body.trackId.getD ""
    match resolveMotionTrack trackFiles jobs tid with
    | none =>
        ⟨.err 404 ("MotionTrack " ++ tid ++ " not found — run POST /api/analyze/motion first")
        , none, false⟩
    | some mt =>
        let fc := framesLength mt
        let created := createJobRecord .transferSequence newId now
        let afterRun := (applyStoreUpdate (created, none) now runningPatch).1
        ⟨.ok fc, some afterRun, true⟩

-- ── Beat detection (`detectBeats` in VideoEditor.jsx) ──

/-- `Math.floor(sampleRate * 0.02)` — the 20 ms window length. -/
def windowLen (sr : ℚ) : ℕ := (Int.floor (sr * 0.02)).toNat

/-- The window start indices visited by
`for (let i = 0; i < data.length - win; i += win)`: multiples of the
window length with `i + win < N` (for a positive window length the loop
stops at the first index failing the bound, and the bound is monotone,
so the visited set is exactly this filter, in increasing order). -/
def windowStarts (W N : ℕ) : List ℕ :=
  (List.range N).filter (fun i => decide (i % W = 0 ∧ i + W < N))

/-- The mean squared energy of the window starting at `i`:
`e = (Σ data[j]²)/win` over `j = i … i+win−1`. -/
def energyAt (data : List ℚ) (W i : ℕ) : ℚ :=
  (((List.range W).map (fun j => data.getD (i + j) 0 * data.getD (i + j) 0)).sum) / (W : ℚ)

/-- Scan state of the beat loop: the smoothed baseline `prev` and the
beats pushed so far, most recent first. -/
structure BeatScanState where
  prev : ℚ
  revBeats : List ℚ

/-- The gap test `gap > minGap` with
`gap = beats.length ? t - beats[beats.length-1] : Infinity` (an empty
beat list makes the gap `Infinity`, which always passes). -/
def gapPasses (mg t : ℚ) : List ℚ → Bool
  | [] => true
  | last :: _ => decide (t - last > mg)

/-- The push condition `(e - prev) > threshold && gap > minGap`. -/
def beatFires (thr mg prev e t : ℚ) (revBeats : List ℚ) : Bool :=
  decide (e - prev > thr) && gapPasses mg t revBeats

/-- One iteration of the beat loop: push `t` iff `beatFires`; then always
smooth the baseline `prev ← e*0.55 + prev*0.45`. -/
def beatStep (data : List ℚ) (sr thr mg : ℚ) (W : ℕ) (st : BeatScanState)
    (i : ℕ) : BeatScanState :=
  let e := energyAt data W i
  let t := (i : ℚ) / sr
  { prev := e * 0.55 + st.prev * 0.45
  , revBeats := if beatFires thr mg st.prev e t st.revBeats
      then t :: st.revBeats else st.revBeats }

/-- `detectBeats(buffer, threshold = 0.15, minGap = 0.28)` from
`VideoEditor.jsx`, over the mono channel samples and sample rate. -/
def detectBeats (data : List ℚ) (sr thr mg : ℚ) : List ℚ :=
  let W := windowLen sr
  ((windowStarts W data.length).foldl (beatStep data sr thr mg W) ⟨0, []⟩).revBeats.reverse

/-- Scan state of the specification wording of the beat detector:
`prevEnergy`, the explicit `lastBeatTime`, and the emitted beats in
order. -/
structure BeatSpecState where
  prevEnergy : ℚ
  lastBeatTime : Option ℚ
  beats : List ℚ

/-- The gap test on an explicit optional last beat time (absent for the
first candidate, which therefore always passes). -/
def gapPassesOpt (mg t : ℚ) : Option ℚ → Bool
  | none => true
  | some lb => decide (t - lb > mg)

/-- Modelled from the spec wording of claim C6: a beat is emitted at `t`
iff `(e − prevEnergy) > threshold` and `(t − lastBeatTime) > minGap`,
the first candidate always passing the gap test; after every window
`prevEnergy ← 0.55·e + 0.45·prevEnergy`. -/
def beatSpecStep (data : List ℚ) (sr thr mg : ℚ) (W : ℕ) (st : BeatSpecState)
    (i : ℕ) : BeatSpecState :=
  let e := energyAt data W i
  let t := (i : ℚ) / sr
  if decide (e - st.prevEnergy > thr) && gapPassesOpt mg t st.lastBeatTime then
    { prevEnergy := 0.55 * e + 0.45 * st.prevEnergy
    , lastBeatTime := some t
    , beats := st.beats ++ [t] }
  else
    { st with prevEnergy := 0.55 * e + 0.45 * st.prevEnergy }

/-- The beat detector as worded by the spec (sharing the code's window
enumeration; claim C7 settles the window enumeration itself). -/
def detectBeatsSpec (data : List ℚ) (sr thr mg : ℚ) : List ℚ :=
  let W := windowLen sr
  ((windowStarts W data.length).foldl (beatSpecStep data sr thr mg W) ⟨0, none, []⟩).beats

/-- Modelled from the spec wording of claim C7: window starts are every
`i = 0, W, 2W, …` satisfying `i + W ≤ N` — so a window ending exactly at
sample `N` is processed. -/
def windowStartsClaim (W N : ℕ) : List ℕ :=
  (List.range (N + 1)).filter (fun i => decide (i % W = 0 ∧ i + W ≤ N))

/-- The beat detector over the claim-C7 window enumeration, used to
exhibit the observable difference with `detectBeats`. -/
def detectBeatsClaim (data : List ℚ) (sr thr mg : ℚ) : List ℚ :=
  let W := windowLen sr
  ((windowStartsClaim W data.length).foldl (beatStep data sr thr mg W) ⟨0, []⟩).revBeats.reverse

-- ── Scene auto-segmentation (`handleUpload` in VideoEditor.jsx) ──

/-- `nScenes = Math.min(Math.max(Math.floor(beats.length / 4), 4), 16)`. -/
def nScenes (beatCount : ℕ) : ℕ := min (max (beatCount / 4) 4) 16

/-- The art-direction tag cycle assigned round-robin to scenes. -/
def ART_STYLES : List String :=
  ["ENCOM GRID", "NOIR SKETCH", "ANIME CEL", "OIL PAINT",
   "GLITCH ART", "WATERCOLOR", "PIXEL ART", "BRUTALIST"]

/-- One scene slot (`end` is named `stop`; the mutable `prompt`,
`status` and `videoUrl` members start empty and are omitted). -/
structure SceneSlot where
  idx : ℕ
  start : ℚ
  stop : ℚ
  style : String
deriving Inhabited

/-- The scene array built in `handleUpload`:
`{ id: i, start: i*segDur, end: min((i+1)*segDur, dur), style: ART_STYLES[i % 8] }`. -/
def buildScenes (beatCount : ℕ) (dur : ℚ) : List SceneSlot :=
  let n := nScenes beatCount
  let segDur := dur / (n : ℚ)
  (List.range n).map (fun i =>
    { idx := i
    , start := (i : ℚ) * segDur
    , stop := min (((i : ℚ) + 1) * segDur) dur
    , style := ART_STYLES.getD (i % ART_STYLES.length) "" })

-- ── Request body accumulation (`parseBody`) ──

/-- The hard cap tested after appending each data chunk. -/
def bodyCap : ℕ := 50000000

/-- The chunk accumulation of `parseBody`: append each chunk; if the
accumulated body ever exceeds the cap the request is destroyed
(`req.destroy()`), after which no further `data` or `end` event fires,
so the result is `none`; otherwise the `end` event yields the body. -/
def accumulateBody : List Char → List (List Char) → Option (List Char)
  | acc, [] => some acc
  | acc, c :: cs =>
    let b := acc ++ c
    if bodyCap < b.length then none else accumulateBody b cs

/-- Observable outcome of a POST request at the body-parsing stage. -/
inductive PostRouteOutcome : Type where
  | noResponse : PostRouteOutcome
  | invalidJson : PostRouteOutcome
  | dispatched (body : JsonVal) : PostRouteOutcome

/-- The POST branch of the HTTP server: run `parseBody` over the data
chunks; a destroyed request never invokes the callback (no response at
all), an unparseable body answers 400 `Invalid JSON body`, and a parsed
body reaches the route handler.  `parse` abstracts `JSON.parse`. -/
def postRoute (chunks : List (List Char)) (parse : List Char → Option JsonVal) :
    PostRouteOutcome :=
  match accumulateBody [] chunks with
  | none => .noResponse
  | some b =>
    match parse b with
    | none => .invalidJson
    | some j => .dispatched j

-- ── Shared concrete values for counterexamples and witnesses ──

/-- A placeholder for the abstract `Math.sin` parameter. -/
def sinf0 : ℚ → ℚ := fun _ => 0

/-- A job record already in the terminal `complete` state. -/
def jobA : JobRecord :=
  { id := "job-a", type := .analyzeMotion, status := .complete
  , result := .json (.str "payload"), error := none, mock := false
  , createdAt := 0, completedAt := some 3 }

/-- An in-memory job map holding exactly the terminal record `jobA`. -/
def jobs0 : String → Option JobRecord :=
  fun k => if k = "job-a" then some jobA else none

/-- Modelled from the spec: a "structured error payload" — a response
that parses as JSON but reports a remote error, here a JSON object
carrying an `error` member. -/
def isErrorPayload : JsonVal → Bool
  | .obj fields => fields.any (fun kv => kv.1 = "error")
  | _ => false

/-- A structured error payload as the Model Backend would send one. -/
def errorPayload0 : JsonVal :=
  .obj [("ok", .bool false), ("error", .str "CUDA out of memory")]

/-- The types for which the handlers synthesize a mock result on backend
failure. -/
def mockableType (ty : JobType) : Prop :=
  ty = .analyzeMotion ∨ ty = .analyzeExpression ∨ ty = .analyzeFace

end Argon

namespace Argon

-- ── Small facts about `applyStoreUpdate` and `terminalPatch` ──

theorem applyStoreUpdate_fst_mock (rd : JobRecord × Option JobRecord)
    (now : ℤ) (p : JobPatch) :
    (applyStoreUpdate rd now p).1.mock = p.mock.getD rd.1.mock := by
  unfold applyStoreUpdate
  split <;> rfl

theorem applyStoreUpdate_fst_status (rd : JobRecord × Option JobRecord)
    (now : ℤ) (p : JobPatch) :
    (applyStoreUpdate rd now p).1.status = p.status.getD rd.1.status := by
  unfold applyStoreUpdate
  split <;> rfl

theorem applyStoreUpdate_terminal (rd : JobRecord × Option JobRecord)
    (now : ℤ) (p : JobPatch) (hp : terminalStatusPatch p) :
    (applyStoreUpdate rd now p).2 = some (applyStoreUpdate rd now p).1 := by
  unfold applyStoreUpdate
  rw [if_pos hp]

theorem terminalPatch_terminal (sinf : ℚ → ℚ) (ty : JobType) (jobId : String)
    (fps : ℕ) (oc : ProxyOutcome) :
    terminalStatusPatch (terminalPatch sinf ty jobId fps oc) := by
  cases oc with
  | success payload => exact Or.inl rfl
  | failure msg => cases ty <;> first | exact Or.inl rfl | exact Or.inr rfl

theorem terminalPatch_mock_eq_some_true (sinf : ℚ → ℚ) (ty : JobType)
    (jobId : String) (fps : ℕ) (oc : ProxyOutcome)
    (h : (terminalPatch sinf ty jobId fps oc).mock = some true) :
    mockableType ty ∧ oc.isFailure = true ∧
      (terminalPatch sinf ty jobId fps oc).status = some .complete := by
  cases oc with
  | success payload => simp [terminalPatch] at h
  | failure msg =>
    cases ty <;> simp_all [terminalPatch, mockableType, ProxyOutcome.isFailure]

-- ── Claim C1 ──

/-- Claim C1 counterexample: the claim asserts that once a job is
terminal a further `updateJob` call leaves the record unchanged (failing
with `InvalidTransition`).  On the embedded code this is false at a
concrete input: `jobs0` holds the completed record `jobA`, yet an
`updateJob` carrying `{status:'error'}` changes the stored status from
`complete` to `error`. -/
theorem updateJob_terminal_overwrite_cex :
    (jobs0 "job-a").map JobRecord.status = some .complete ∧
    ((updateJob jobs0 (fun _ => none) 9 "job-a"
        { status := some .error, error := some "late failure" }).1 "job-a").map
      JobRecord.status = some .error := by
  constructor <;> rfl

/-- Claim C1 amended: `updateJob` performs no terminal-state check and
never fails with `InvalidTransition` — when the id exists, the patch is
assigned onto the record unconditionally, so a job already in a terminal
state still takes whatever status a later patch carries (terminal
records are mutable); only an unknown id is a silent no-op. -/
theorem updateJob_applies_patch_past_terminal
    (jobs disk : String → Option JobRecord) (now : ℤ) (id : String)
    (p : JobPatch) (job : JobRecord) (s : JobStatus)
    (hj : jobs id = some job)
    (hterm : job.status = .complete ∨ job.status = .error)
    (hp : p.status = some s) :
    ((updateJob jobs disk now id p).1 id).map JobRecord.status = some s ∧
    (∀ k, jobs k = none → (updateJob jobs disk now k p).1 = jobs) := by
  constructor
  · unfold updateJob
    rw [hj]
    by_cases h : terminalStatusPatch p
    · simp only [if_pos h, setJob, if_pos rfl, Option.map_some]
      simp [applyPatch, hp]
    · simp only [if_neg h, setJob, if_pos rfl, Option.map_some]
      simp [applyPatch, hp]
  · intro k hk
    unfold updateJob
    rw [hk]

theorem updateJob_applies_patch_past_terminal_witness :
    jobs0 "job-a" = some jobA ∧
    (jobA.status = .complete ∨ jobA.status = .error) ∧
    (((updateJob jobs0 (fun _ => none) 9 "job-a"
        { status := some .running }).1 "job-a").map JobRecord.status = some .running ∧
      (∀ k, jobs0 k = none →
        (updateJob jobs0 (fun _ => none) 9 k { status := some .running }).1 = jobs0)) :=
  ⟨rfl, Or.inl rfl,
    updateJob_applies_patch_past_terminal jobs0 (fun _ => none) 9 "job-a"
      { status := some .running } jobA .running rfl (Or.inl rfl) rfl⟩

-- ── Claim C2 ──

/-- Claim C2 (code bug): the repository's schema document specifies a
`MODEL_ERROR` classification for a backend that "returned an error
payload", and the claim says such a job ends in `error` and is never
`complete`.  The embedded `proxyPost` hands any JSON-parseable body to
`onResult`, so a structured error payload completes the analyze-motion
job with the payload as its result and `mock=false` — and this holds for
every JSON payload, error-shaped or not. -/
theorem remote_error_payload_completes_job :
    (isErrorPayload errorPayload0 = true ∧
      (jobLifecycle sinf0 .analyzeMotion "job-1" 24 0
          (.finished [(7, classifyResponse (.httpBody (some errorPayload0)))])).1.status
        = .complete ∧
      (jobLifecycle sinf0 .analyzeMotion "job-1" 24 0
          (.finished [(7, classifyResponse (.httpBody (some errorPayload0)))])).1.mock
        = false ∧
      (jobLifecycle sinf0 .analyzeMotion "job-1" 24 0
          (.finished [(7, classifyResponse (.httpBody (some errorPayload0)))])).1.result
        = .json errorPayload0) ∧
    (∀ (sinf : ℚ → ℚ) (jobId : String) (fps : ℕ) (createdAt tm : ℤ) (j : JsonVal),
      (jobLifecycle sinf .analyzeMotion jobId fps createdAt
          (.finished [(tm, classifyResponse (.httpBody (some j)))])).1.status = .complete ∧
      (jobLifecycle sinf .analyzeMotion jobId fps createdAt
          (.finished [(tm, classifyResponse (.httpBody (some j)))])).1.mock = false ∧
      (jobLifecycle sinf .analyzeMotion jobId fps createdAt
          (.finished [(tm, classifyResponse (.httpBody (some j)))])).1.result = .json j) :=
  ⟨⟨rfl, rfl, rfl, rfl⟩, fun _ _ _ _ _ _ => ⟨rfl, rfl, rfl⟩⟩

-- ── Claim C5 ──

/-- Claim C5: a transfer-sequence request whose `trackId` resolves to no
prior motion-analysis result — in neither the durable track files nor the
in-memory job map — is answered synchronously with a 404 `not found`
response, before `createJob` and before `proxyPost`: no job record is
created for it and no job is left in the `running` state. -/
theorem transfer_sequence_track_not_found
    (body : TransferSequenceBody)
    (trackFiles : String → Option (Option JsonVal))
    (jobs : String → Option JobRecord) (newId : String) (now : ℤ)
    (hchar : strTruthy body.characterImage = true)
    (htid : strTruthy body.trackId = true)
    (hres : resolveMotionTrack trackFiles jobs (body.trackId.getD "") = none) :
    handleTransferSequence body trackFiles jobs newId now =
      { resp := .err 404 ("MotionTrack " ++ body.trackId.getD ""
          ++ " not found — run POST /api/analyze/motion first")
      , createdJob := none
      , backendCalled := false } := by
  unfold handleTransferSequence
  rw [if_neg (by simp [hchar]), if_neg (by simp [htid])]
  dsimp only
  rw [hres]

theorem transfer_sequence_track_not_found_witness :
    resolveMotionTrack (fun k => if k = "t-1" then some (some .null) else none)
        (fun _ => none) "t-1" = none ∧
    handleTransferSequence
        (TransferSequenceBody.mk (some "img") (some "t-1") none none none none)
        (fun k => if k = "t-1" then some (some .null) else none)
        (fun _ => none) "new-id" 11 =
      { resp := .err 404 "MotionTrack t-1 not found — run POST /api/analyze/motion first"
      , createdJob := none
      , backendCalled := false } :=
  ⟨rfl,
    transfer_sequence_track_not_found
      (TransferSequenceBody.mk (some "img") (some "t-1") none none none none)
      (fun k => if k = "t-1" then some (some .null) else none)
      (fun _ => none) "new-id" 11 (by decide) (by decide) rfl⟩

-- ── Claim C10 ──

theorem accumulateBody_overflow (cs : List (List Char)) :
    ∀ acc : List Char, acc.length ≤ bodyCap →
      bodyCap < acc.length + (cs.map List.length).sum →
      accumulateBody acc cs = none := by
  induction cs with
  | nil =>
    intro acc h1 h2
    simp only [List.map_nil, List.sum_nil, Nat.add_zero] at h2
    omega
  | cons c cs ih =>
    intro acc h1 h2
    simp only [List.map_cons, List.sum_cons] at h2
    unfold accumulateBody
    by_cases hb : bodyCap < (acc ++ c).length
    · rw [if_pos hb]
    · rw [if_neg hb]
      apply ih
      · omega
      · rw [List.length_append]
        omega

/-- Claim C10: a POST request whose accumulated body exceeds 50,000,000
characters is destroyed by the body parser: the parse callback is never
invoked, so the request produces no response at all — neither a JSON
error nor a dispatched route handler, hence no job. -/
theorem oversized_body_destroyed (chunks : List (List Char))
    (parse : List Char → Option JsonVal)
    (h : bodyCap < (chunks.map List.length).sum) :
    accumulateBody [] chunks = none ∧
    postRoute chunks parse = .noResponse := by
  have hnone : accumulateBody [] chunks = none := by
    apply accumulateBody_overflow chunks []
    · simp [bodyCap]
    · simpa using h
  refine ⟨hnone, ?_⟩
  unfold postRoute
  rw [hnone]

theorem oversized_body_destroyed_witness :
    bodyCap < (([List.replicate 50000001 'a']).map List.length).sum ∧
    postRoute [List.replicate 50000001 'a'] (fun _ => none) = .noResponse := by
  have hlen : bodyCap < (([List.replicate 50000001 'a']).map List.length).sum := by
    rw [List.map_cons, List.map_nil, List.length_replicate, List.sum_cons, List.sum_nil,
      Nat.add_zero, bodyCap]
    norm_num
  exact ⟨hlen, (oversized_body_destroyed [List.replicate 50000001 'a']
      (fun _ => none) hlen).2⟩

-- ── Claim C3 ──

/-- Folding further callbacks over a mockable job that is already
`mock=true` and `complete` keeps it `mock=true` and `complete`. -/
theorem fold_preserves_mock (sinf : ℚ → ℚ) (ty : JobType) (jobId : String)
    (fps : ℕ) (hm : mockableType ty) :
    ∀ (cbs : List (ℤ × ProxyOutcome)) (rd : JobRecord × Option JobRecord),
      rd.1.mock = true → rd.1.status = .complete →
      ((cbs.foldl
          (fun rd c => applyStoreUpdate rd c.1 (terminalPatch sinf ty jobId fps c.2))
          rd).1.mock = true ∧
        (cbs.foldl
          (fun rd c => applyStoreUpdate rd c.1 (terminalPatch sinf ty jobId fps c.2))
          rd).1.status = .complete) := by
  intro cbs
  induction cbs with
  | nil => intro rd h1 h2; exact ⟨h1, h2⟩
  | cons c cs ih =>
    intro rd h1 h2
    rw [List.foldl_cons]
    apply ih
    · rw [applyStoreUpdate_fst_mock]
      rcases hm with h | h | h <;> subst h <;> cases c.2 <;>
        simp [terminalPatch, h1]
    · rw [applyStoreUpdate_fst_status]
      rcases hm with h | h | h <;> subst h <;> cases c.2 <;>
        simp [terminalPatch]

/-- A `mock=true` record arising from folding callbacks over a
non-mock record comes from a mockable type and a failed backend call,
and is `complete`. -/
theorem fold_mock_origin (sinf : ℚ → ℚ) (ty : JobType) (jobId : String)
    (fps : ℕ) :
    ∀ (cbs : List (ℤ × ProxyOutcome)) (rd : JobRecord × Option JobRecord),
      rd.1.mock = false →
      (cbs.foldl
          (fun rd c => applyStoreUpdate rd c.1 (terminalPatch sinf ty jobId fps c.2))
          rd).1.mock = true →
      mockableType ty ∧
        (cbs.foldl
          (fun rd c => applyStoreUpdate rd c.1 (terminalPatch sinf ty jobId fps c.2))
          rd).1.status = .complete ∧
        ∃ c ∈ cbs, (c.2).isFailure = true := by
  intro cbs
  induction cbs with
  | nil => intro rd h0 h1; rw [List.foldl_nil] at h1; rw [h0] at h1; cases h1
  | cons c cs ih =>
    intro rd h0 h1
    by_cases hstep : (applyStoreUpdate rd c.1 (terminalPatch sinf ty jobId fps c.2)).1.mock = true
    · -- the head callback set `mock`; it must be a mockable failure
      have hpatch : (terminalPatch sinf ty jobId fps c.2).mock = some true := by
        rw [applyStoreUpdate_fst_mock] at hstep
        cases hmp : (terminalPatch sinf ty jobId fps c.2).mock with
        | none => rw [hmp] at hstep; simp [h0] at hstep
        | some b => rw [hmp] at hstep; simp at hstep; rw [hstep]
      obtain ⟨hmock, hfail, hcomplete⟩ :=
        terminalPatch_mock_eq_some_true sinf ty jobId fps c.2 hpatch
      have hstat : (applyStoreUpdate rd c.1 (terminalPatch sinf ty jobId fps c.2)).1.status
          = .complete := by
        rw [applyStoreUpdate_fst_status, hcomplete]; rfl
      obtain ⟨hm2, hs2⟩ := fold_preserves_mock sinf ty jobId fps hmock cs _ hstep hstat
      rw [List.foldl_cons]
      exact ⟨hmock, hs2, c, List.mem_cons_self c cs, hfail⟩
    · rw [List.foldl_cons] at h1 ⊢
      obtain ⟨hmock, hs2, c2, hc2, hf2⟩ :=
        ih _ (Bool.eq_false_iff.mpr hstep) h1
      exact ⟨hmock, hs2, c2, List.mem_cons_of_mem c hc2, hf2⟩

/-- Claim C3: a job record ever carrying `mock=true` belongs to one of
the three mockable analyze types, is in status `complete`, and got there
through a failed backend call; in particular no segment, transfer or
generation job ever produces `mock=true`. -/
theorem mock_only_mockable_failure (sinf : ℚ → ℚ) (ty : JobType)
    (jobId : String) (fps : ℕ) (createdAt : ℤ) (stage : JobStage)
    (h : (jobLifecycle sinf ty jobId fps createdAt stage).1.mock = true) :
    mockableType ty ∧
    (jobLifecycle sinf ty jobId fps createdAt stage).1.status = .complete ∧
    ∃ cbs, stage = .finished cbs ∧ ∃ c ∈ cbs, (c.2).isFailure = true := by
  cases stage with
  | queued => cases h
  | running => cases h
  | finished cbs =>
    have h0 : (jobAfterRunning ty jobId createdAt).1.mock = false := rfl
    obtain ⟨hmock, hstat, hc⟩ :=
      fold_mock_origin sinf ty jobId fps cbs (jobAfterRunning ty jobId createdAt) h0 h
    exact ⟨hmock, hstat, cbs, rfl, hc⟩

theorem mock_only_mockable_failure_witness :
    (jobLifecycle sinf0 .analyzeMotion "j" 1 0
        (.finished [(5, .failure "backend down")])).1.mock = true ∧
    (mockableType .analyzeMotion ∧
      (jobLifecycle sinf0 .analyzeMotion "j" 1 0
          (.finished [(5, .failure "backend down")])).1.status = .complete ∧
      ∃ cbs, (JobStage.finished [((5 : ℤ), ProxyOutcome.failure "backend down")])
          = .finished cbs ∧ ∃ c ∈ cbs, (c.2).isFailure = true) :=
  ⟨rfl, mock_only_mockable_failure sinf0 .analyzeMotion "j" 1 0
      (.finished [(5, .failure "backend down")]) rfl⟩

-- ── Claim C4 ──

/-- After at least one terminal callback, the durable file for the job
holds exactly its current record. -/
theorem fold_disk_after_finish (sinf : ℚ → ℚ) (ty : JobType) (jobId : String)
    (fps : ℕ) :
    ∀ (cbs : List (ℤ × ProxyOutcome)) (rd : JobRecord × Option JobRecord),
      cbs ≠ [] →
      (cbs.foldl
          (fun rd c => applyStoreUpdate rd c.1 (terminalPatch sinf ty jobId fps c.2))
          rd).2 =
        some (cbs.foldl
          (fun rd c => applyStoreUpdate rd c.1 (terminalPatch sinf ty jobId fps c.2))
          rd).1 := by
  intro cbs
  induction cbs with
  | nil => intro rd hne; exact absurd rfl hne
  | cons c cs ih =>
    intro rd _
    rw [List.foldl_cons]
    cases cs with
    | nil =>
      rw [List.foldl_nil]
      exact applyStoreUpdate_terminal rd c.1 _
        (terminalPatch_terminal sinf ty jobId fps c.2)
    | cons c2 cs2 => exact ih _ (by simp)

/-- Claim C4: durability round-trip.  A job that reached a terminal
state has its full record written to the (single, id-keyed) durable
entry, and after a simulated restart — in-memory map emptied — the
`GET /api/jobs/:id` route serves that record with identical status and
result; a job still `queued` or `running` at restart has no durable
entry and the same route answers 404. -/
theorem terminal_durability_roundtrip (sinf : ℚ → ℚ) (ty : JobType)
    (jobId : String) (fps : ℕ) (createdAt : ℤ) :
    (∀ cbs, cbs ≠ [] →
      (jobLifecycle sinf ty jobId fps createdAt (.finished cbs)).2 =
        some (jobLifecycle sinf ty jobId fps createdAt (.finished cbs)).1 ∧
      getJobRoute none (jobLifecycle sinf ty jobId fps createdAt (.finished cbs)).2 =
        .found (jobLifecycle sinf ty jobId fps createdAt (.finished cbs)).1.status
          (jobLifecycle sinf ty jobId fps createdAt (.finished cbs)).1.result
          (jobLifecycle sinf ty jobId fps createdAt (.finished cbs)).1.error
          (jobLifecycle sinf ty jobId fps createdAt (.finished cbs)).1.mock) ∧
    (jobLifecycle sinf ty jobId fps createdAt .queued).2 = none ∧
    (jobLifecycle sinf ty jobId fps createdAt .running).2 = none ∧
    getJobRoute none none = .notFound := by
  refine ⟨?_, rfl, rfl, rfl⟩
  intro cbs hne
  have hdisk := fold_disk_after_finish sinf ty jobId fps cbs
    (jobAfterRunning ty jobId createdAt) hne
  refine ⟨hdisk, ?_⟩
  show getJobRoute none
      (cbs.foldl
        (fun rd c => applyStoreUpdate rd c.1 (terminalPatch sinf ty jobId fps c.2))
        (jobAfterRunning ty jobId createdAt)).2 = _
  rw [hdisk]
  rfl

theorem terminal_durability_roundtrip_witness :
    ([((5 : ℤ), ProxyOutcome.failure "net down")] ≠
        ([] : List (ℤ × ProxyOutcome))) ∧
    ((jobLifecycle sinf0 .transferPose "j" 24 0
        (.finished [(5, .failure "net down")])).2 =
      some (jobLifecycle sinf0 .transferPose "j" 24 0
        (.finished [(5, .failure "net down")])).1 ∧
      getJobRoute none (jobLifecycle sinf0 .transferPose "j" 24 0
          (.finished [(5, .failure "net down")])).2 =
        .found (jobLifecycle sinf0 .transferPose "j" 24 0
            (.finished [(5, .failure "net down")])).1.status
          (jobLifecycle sinf0 .transferPose "j" 24 0
            (.finished [(5, .failure "net down")])).1.result
          (jobLifecycle sinf0 .transferPose "j" 24 0
            (.finished [(5, .failure "net down")])).1.error
          (jobLifecycle sinf0 .transferPose "j" 24 0
            (.finished [(5, .failure "net down")])).1.mock) :=
  ⟨by simp,
    (terminal_durability_roundtrip sinf0 .transferPose "j" 24 0).1
      [(5, .failure "net down")] (by simp)⟩

-- ── Claim C8 ──

theorem buildScenes_getD (beatCount : ℕ) (dur : ℚ) (i : ℕ)
    (hi : i < nScenes beatCount) :
    (buildScenes beatCount dur).getD i default =
      { idx := i
      , start := (i : ℚ) * (dur / (nScenes beatCount : ℚ))
      , stop := min (((i : ℚ) + 1) * (dur / (nScenes beatCount : ℚ))) dur
      , style := ART_STYLES.getD (i % ART_STYLES.length) "" } := by
  rw [List.getD_eq_getElem?_getD, buildScenes, List.getElem?_map,
    List.getElem?_range hi]
  rfl

theorem nScenes_ge_4 (beatCount : ℕ) : 4 ≤ nScenes beatCount :=
  le_min (le_max_right _ 4) (by norm_num)

theorem scene_width_le (beatCount : ℕ) (dur : ℚ) (hdur : 0 ≤ dur) (i : ℕ)
    (hi : i < nScenes beatCount) :
    ((i : ℚ) + 1) * (dur / (nScenes beatCount : ℚ)) ≤ dur := by
  have hn : (0 : ℚ) < (nScenes beatCount : ℚ) := by
    exact_mod_cast lt_of_lt_of_le (by norm_num) (nScenes_ge_4 beatCount)
  have hcast : (i : ℚ) + 1 ≤ (nScenes beatCount : ℚ) := by
    exact_mod_cast Nat.succ_le_of_lt hi
  calc ((i : ℚ) + 1) * (dur / (nScenes beatCount : ℚ))
      ≤ (nScenes beatCount : ℚ) * (dur / (nScenes beatCount : ℚ)) :=
        mul_le_mul_of_nonneg_right hcast (div_nonneg hdur hn.le)
    _ = dur := by rw [mul_comm, div_mul_cancel₀ dur hn.ne']

/-- Claim C8: scene auto-segmentation uses
`nScenes = clamp(floor(beatCount/4), 4, 16)` and divides the duration
into that many equal-length, contiguous, non-overlapping segments
covering `[0, dur]`; `beatCount = 2` gives 4 scenes, `100` gives 16,
`20` gives 5. -/
theorem scene_segmentation_clamp (beatCount : ℕ) (dur : ℚ) (hdur : 0 ≤ dur) :
    nScenes beatCount = min (max (beatCount / 4) 4) 16 ∧
    4 ≤ nScenes beatCount ∧ nScenes beatCount ≤ 16 ∧
    (buildScenes beatCount dur).length = nScenes beatCount ∧
    (∀ i, i < nScenes beatCount →
      ((buildScenes beatCount dur).getD i default).start
          = (i : ℚ) * (dur / (nScenes beatCount : ℚ)) ∧
        ((buildScenes beatCount dur).getD i default).stop
          = ((i : ℚ) + 1) * (dur / (nScenes beatCount : ℚ))) ∧
    (∀ i, i + 1 < nScenes beatCount →
      ((buildScenes beatCount dur).getD (i + 1) default).start
        = ((buildScenes beatCount dur).getD i default).stop) ∧
    ((buildScenes beatCount dur).getD 0 default).start = 0 ∧
    ((buildScenes beatCount dur).getD (nScenes beatCount - 1) default).stop = dur ∧
    nScenes 2 = 4 ∧ nScenes 100 = 16 ∧ nScenes 20 = 5 := by
  have hform : ∀ i, i < nScenes beatCount →
      ((buildScenes beatCount dur).getD i default).start
          = (i : ℚ) * (dur / (nScenes beatCount : ℚ)) ∧
        ((buildScenes beatCount dur).getD i default).stop
          = ((i : ℚ) + 1) * (dur / (nScenes beatCount : ℚ)) := by
    intro i hi
    rw [buildScenes_getD beatCount dur i hi]
    exact ⟨rfl, min_eq_left (scene_width_le beatCount dur hdur i hi)⟩
  have hn4 := nScenes_ge_4 beatCount
  have hnpos : 0 < nScenes beatCount := lt_of_lt_of_le (by norm_num) hn4
  refine ⟨rfl, hn4, min_le_right _ _, by simp [buildScenes], hform, ?_, ?_, ?_,
    by decide, by decide, by decide⟩
  · intro i hi
    have h1 := (hform (i + 1) hi).1
    have h2 := (hform i (Nat.lt_of_succ_lt hi)).2
    rw [h1, h2]
    push_cast
    ring
  · have h0 := (hform 0 hnpos).1
    rw [h0]
    simp
  · have hlast := (hform (nScenes beatCount - 1) (Nat.sub_lt hnpos one_pos)).2
    rw [hlast]
    have hn : (0 : ℚ) < (nScenes beatCount : ℚ) := by exact_mod_cast hnpos
    have hcast : ((nScenes beatCount - 1 : ℕ) : ℚ) + 1 = (nScenes beatCount : ℚ) := by
      have h1 : 1 ≤ nScenes beatCount := hnpos
      push_cast [Nat.cast_sub h1]
      ring
    rw [hcast, mul_comm, div_mul_cancel₀ dur hn.ne']

theorem scene_segmentation_clamp_witness :
    ((0 : ℚ) ≤ 10) ∧
    (nScenes 2 = min (max (2 / 4) 4) 16 ∧
      4 ≤ nScenes 2 ∧ nScenes 2 ≤ 16 ∧
      (buildScenes 2 (10 : ℚ)).length = nScenes 2 ∧
      (∀ i, i < nScenes 2 →
        ((buildScenes 2 (10 : ℚ)).getD i default).start
            = (i : ℚ) * ((10 : ℚ) / (nScenes 2 : ℚ)) ∧
          ((buildScenes 2 (10 : ℚ)).getD i default).stop
            = ((i : ℚ) + 1) * ((10 : ℚ) / (nScenes 2 : ℚ))) ∧
      (∀ i, i + 1 < nScenes 2 →
        ((buildScenes 2 (10 : ℚ)).getD (i + 1) default).start
          = ((buildScenes 2 (10 : ℚ)).getD i default).stop) ∧
      ((buildScenes 2 (10 : ℚ)).getD 0 default).start = 0 ∧
      ((buildScenes 2 (10 : ℚ)).getD (nScenes 2 - 1) default).stop = 10 ∧
      nScenes 2 = 4 ∧ nScenes 100 = 16 ∧ nScenes 20 = 5) :=
  ⟨by norm_num, scene_segmentation_clamp 2 10 (by norm_num)⟩

-- ── Claim C9 ──

/-- Claim C9: the mock analyze-motion result has exactly `4·fps` frames,
and the frame at index `i` sits at `t = i/fps`, sways the nose by
`sin(t·1.2)·0.05` (the neck by half of it), gives every expression
channel the value `(sin(t·freq)·0.5+0.5)·amp` with the fixed per-channel
pairs, and derives `valence`, `arousal`, `dominance` and `intensity` by
the stated formulas — for any sine routine `sinf`. -/
theorem mock_motion_track_formulas (sinf : ℚ → ℚ) (id : String) (fps : ℕ)
    (hfps : 0 < fps) (i : ℕ) (hi : i < 4 * fps) :
    (buildMockMotionTrack sinf id fps).frames.length = 4 * fps ∧
    ∃ fr, (buildMockMotionTrack sinf id fps).frames[i]? = some fr ∧
      fr.t = (i : ℚ) / (fps : ℚ) ∧
      fr.frameIndex = i ∧
      fr.pose.body.nose.x = 0.50 + sinf (fr.t * 1.2) * 0.05 ∧
      fr.pose.body.neck.x = 0.50 + sinf (fr.t * 1.2) * 0.05 * 0.5 ∧
      fr.expression.jaw = (sinf (fr.t * 0.80) * 0.5 + 0.5) * 0.30 ∧
      fr.expression.browInner = (sinf (fr.t * 1.20) * 0.5 + 0.5) * 0.40 ∧
      fr.expression.browOuter = (sinf (fr.t * 0.70) * 0.5 + 0.5) * 0.35 ∧
      fr.expression.eyeWide = (sinf (fr.t * 0.50) * 0.5 + 0.5) * 0.20 ∧
      fr.expression.eyeClose = (sinf (fr.t * 0.30) * 0.5 + 0.5) * 0.15 ∧
      fr.expression.mouthOpen = (sinf (fr.t * 0.80) * 0.5 + 0.5) * 0.40 ∧
      fr.expression.mouthCornerUp = (sinf (fr.t * 0.60) * 0.5 + 0.5) * 0.50 ∧
      fr.expression.mouthCornerDown = 0 ∧
      fr.expression.noseFlair = (sinf (fr.t * 1.00) * 0.5 + 0.5) * 0.15 ∧
      fr.expression.cheekRaise = (sinf (fr.t * 0.60) * 0.5 + 0.5) * 0.30 ∧
      fr.expression.emotionVector.valence = sinf (fr.t * 0.4) * 0.5 + 0.3 ∧
      fr.expression.emotionVector.arousal = (sinf (fr.t * 0.50) * 0.5 + 0.5) * 0.80 ∧
      fr.expression.emotionVector.dominance = 0.6 ∧
      fr.expression.intensity = (sinf (fr.t * 0.90) * 0.5 + 0.5) * 0.85 := by
  refine ⟨by simp [buildMockMotionTrack], mockFrameAt sinf fps i, ?_,
    rfl, rfl, ?_, ?_, rfl, rfl, rfl, rfl, rfl, rfl, rfl, rfl, rfl, rfl, rfl,
    rfl, rfl, rfl⟩
  · show ((List.range (4 * fps)).map (mockFrameAt sinf fps))[i]? = _
    rw [List.getElem?_map, List.getElem?_range hi]
    rfl
  · show 0.50 + sinf ((i : ℚ) / (fps : ℚ) * 1.2) * 0.05 = _
    rfl
  · show 0.50 + sinf ((i : ℚ) / (fps : ℚ) * 1.2) * 0.05 * 0.5 = _
    rfl

theorem mock_motion_track_formulas_witness :
    (0 < 24 ∧ 5 < 4 * 24) ∧
    ((buildMockMotionTrack sinf0 "track-w" 24).frames.length = 4 * 24 ∧
      ∃ fr, (buildMockMotionTrack sinf0 "track-w" 24).frames[5]? = some fr ∧
        fr.t = ((5 : ℕ) : ℚ) / ((24 : ℕ) : ℚ) ∧
        fr.frameIndex = 5 ∧
        fr.pose.body.nose.x = 0.50 + sinf0 (fr.t * 1.2) * 0.05 ∧
        fr.pose.body.neck.x = 0.50 + sinf0 (fr.t * 1.2) * 0.05 * 0.5 ∧
        fr.expression.jaw = (sinf0 (fr.t * 0.80) * 0.5 + 0.5) * 0.30 ∧
        fr.expression.browInner = (sinf0 (fr.t * 1.20) * 0.5 + 0.5) * 0.40 ∧
        fr.expression.browOuter = (sinf0 (fr.t * 0.70) * 0.5 + 0.5) * 0.35 ∧
        fr.expression.eyeWide = (sinf0 (fr.t * 0.50) * 0.5 + 0.5) * 0.20 ∧
        fr.expression.eyeClose = (sinf0 (fr.t * 0.30) * 0.5 + 0.5) * 0.15 ∧
        fr.expression.mouthOpen = (sinf0 (fr.t * 0.80) * 0.5 + 0.5) * 0.40 ∧
        fr.expression.mouthCornerUp = (sinf0 (fr.t * 0.60) * 0.5 + 0.5) * 0.50 ∧
        fr.expression.mouthCornerDown = 0 ∧
        fr.expression.noseFlair = (sinf0 (fr.t * 1.00) * 0.5 + 0.5) * 0.15 ∧
        fr.expression.cheekRaise = (sinf0 (fr.t * 0.60) * 0.5 + 0.5) * 0.30 ∧
        fr.expression.emotionVector.valence = sinf0 (fr.t * 0.4) * 0.5 + 0.3 ∧
        fr.expression.emotionVector.arousal = (sinf0 (fr.t * 0.50) * 0.5 + 0.5) * 0.80 ∧
        fr.expression.emotionVector.dominance = (0.6 : ℚ) ∧
        fr.expression.intensity = (sinf0 (fr.t * 0.90) * 0.5 + 0.5) * 0.85) :=
  ⟨⟨by decide, by decide⟩,
    mock_motion_track_formulas sinf0 "track-w" 24 (by decide) 5 (by decide)⟩

-- ── Claim C6 ──

/-- The simulation relation between the code scan state and the
spec-worded scan state. -/
def scanRel (st : BeatScanState) (ss : BeatSpecState) : Prop :=
  st.prev = ss.prevEnergy ∧ ss.beats = st.revBeats.reverse ∧
    ss.lastBeatTime = st.revBeats.head?

theorem gapPassesOpt_head (mg t : ℚ) (l : List ℚ) :
    gapPassesOpt mg t l.head? = gapPasses mg t l := by
  cases l <;> rfl

theorem beatStep_rel (data : List ℚ) (sr thr mg : ℚ) (W : ℕ) (i : ℕ)
    (st : BeatScanState) (ss : BeatSpecState) (h : scanRel st ss) :
    scanRel (beatStep data sr thr mg W st i) (beatSpecStep data sr thr mg W ss i) := by
  obtain ⟨h1, h2, h3⟩ := h
  have hfire : beatFires thr mg st.prev (energyAt data W i) ((i : ℚ) / sr) st.revBeats
      = (decide (energyAt data W i - ss.prevEnergy > thr) &&
          gapPassesOpt mg ((i : ℚ) / sr) ss.lastBeatTime) := by
    rw [beatFires, h1, h3, gapPassesOpt_head]
  cases hb : beatFires thr mg st.prev (energyAt data W i) ((i : ℚ) / sr) st.revBeats with
  | true =>
    refine ⟨?_, ?_, ?_⟩
    · show energyAt data W i * 0.55 + st.prev * 0.45 =
        (beatSpecStep data sr thr mg W ss i).prevEnergy
      rw [beatSpecStep]
      rw [if_pos (by rw [← hfire, hb])]
      rw [h1]; ring
    · show (beatSpecStep data sr thr mg W ss i).beats =
        (if beatFires thr mg st.prev (energyAt data W i) ((i : ℚ) / sr) st.revBeats
          then ((i : ℚ) / sr) :: st.revBeats else st.revBeats).reverse
      rw [beatSpecStep]
      rw [if_pos (by rw [← hfire, hb]), hb, if_pos rfl]
      rw [h2, List.reverse_cons]
    · show (beatSpecStep data sr thr mg W ss i).lastBeatTime =
        (if beatFires thr mg st.prev (energyAt data W i) ((i : ℚ) / sr) st.revBeats
          then ((i : ℚ) / sr) :: st.revBeats else st.revBeats).head?
      rw [beatSpecStep]
      rw [if_pos (by rw [← hfire, hb]), hb, if_pos rfl]
      rfl
  | false =>
    refine ⟨?_, ?_, ?_⟩
    · show energyAt data W i * 0.55 + st.prev * 0.45 =
        (beatSpecStep data sr thr mg W ss i).prevEnergy
      rw [beatSpecStep]
      rw [if_neg (by rw [← hfire, hb]; simp)]
      rw [h1]; ring
    · show (beatSpecStep data sr thr mg W ss i).beats =
        (if beatFires thr mg st.prev (energyAt data W i) ((i : ℚ) / sr) st.revBeats
          then ((i : ℚ) / sr) :: st.revBeats else st.revBeats).reverse
      rw [beatSpecStep]
      rw [if_neg (by rw [← hfire, hb]; simp), hb, if_neg (by simp)]
      exact h2
    · show (beatSpecStep data sr thr mg W ss i).lastBeatTime =
        (if beatFires thr mg st.prev (energyAt data W i) ((i : ℚ) / sr) st.revBeats
          then ((i : ℚ) / sr) :: st.revBeats else st.revBeats).head?
      rw [beatSpecStep]
      rw [if_neg (by rw [← hfire, hb]; simp), hb, if_neg (by simp)]
      exact h3

theorem foldl_scanRel (data : List ℚ) (sr thr mg : ℚ) (W : ℕ) (l : List ℕ) :
    ∀ (st : BeatScanState) (ss : BeatSpecState), scanRel st ss →
      scanRel (l.foldl (beatStep data sr thr mg W) st)
        (l.foldl (beatSpecStep data sr thr mg W) ss) := by
  induction l with
  | nil => intro st ss h; exact h
  | cons i l ih =>
    intro st ss h
    rw [List.foldl_cons, List.foldl_cons]
    exact ih _ _ (beatStep_rel data sr thr mg W i st ss h)

/-- The beats pushed so far, newest first, descend with pairwise gaps
exceeding `minGap`, and `beatStep` preserves that. -/
theorem foldl_beats_chain (data : List ℚ) (sr thr mg : ℚ) (W : ℕ)
    (hmg : 0 ≤ mg) (l : List ℕ) :
    ∀ st : BeatScanState,
      List.Chain' (fun a b => b < a ∧ mg < a - b) st.revBeats →
      List.Chain' (fun a b => b < a ∧ mg < a - b)
        (l.foldl (beatStep data sr thr mg W) st).revBeats := by
  induction l with
  | nil => intro st h; exact h
  | cons i l ih =>
    intro st h
    rw [List.foldl_cons]
    apply ih
    show List.Chain' _
      (if beatFires thr mg st.prev (energyAt data W i) ((i : ℚ) / sr) st.revBeats
        then ((i : ℚ) / sr) :: st.revBeats else st.revBeats)
    cases hb : beatFires thr mg st.prev (energyAt data W i) ((i : ℚ) / sr) st.revBeats with
    | false => rw [if_neg (by simp)]; exact h
    | true =>
      rw [if_pos rfl]
      have hgap : gapPasses mg ((i : ℚ) / sr) st.revBeats = true :=
        (Bool.and_eq_true _ _ |>.mp hb).2
      cases hrev : st.revBeats with
      | nil => exact List.chain'_singleton _
      | cons last rest =>
        rw [hrev] at hgap h
        have hlt : mg < (i : ℚ) / sr - last := by
          have := of_decide_eq_true hgap
          exact this
        refine List.chain'_cons.mpr ⟨⟨?_, hlt⟩, h⟩
        have : (0 : ℚ) < (i : ℚ) / sr - last := lt_of_le_of_lt hmg hlt
        linarith

/-- Claim C6: the beat scan is exactly the spec-worded scan — a beat at
`t` iff the energy rise exceeds `threshold` and the gap to the last beat
exceeds `minGap` (first candidate passes the gap test), with the
baseline smoothed as `prevEnergy ← 0.55·e + 0.45·prevEnergy` after every
window — and consequently the returned beat list ascends with
consecutive beats more than `minGap` apart. -/
theorem detectBeats_spec_equiv_and_gaps (data : List ℚ) (sr thr mg : ℚ)
    (hmg : 0 ≤ mg) :
    detectBeats data sr thr mg = detectBeatsSpec data sr thr mg ∧
    List.Chain' (fun a b => a < b ∧ mg < b - a) (detectBeats data sr thr mg) := by
  constructor
  · have h := foldl_scanRel data sr thr mg (windowLen sr)
      (windowStarts (windowLen sr) data.length) ⟨0, []⟩ ⟨0, none, []⟩
      ⟨rfl, rfl, rfl⟩
    exact h.2.1.symm
  · have h := foldl_beats_chain data sr thr mg (windowLen sr) hmg
      (windowStarts (windowLen sr) data.length) ⟨0, []⟩ List.chain'_nil
    rw [detectBeats]
    rw [List.chain'_reverse]
    exact h

theorem detectBeats_spec_equiv_and_gaps_witness :
    ((0 : ℚ) ≤ 0.28) ∧
    (detectBeats [1, 0, 0, 1, 1, 0] 100 0.15 0.28 =
        detectBeatsSpec [1, 0, 0, 1, 1, 0] 100 0.15 0.28 ∧
      List.Chain' (fun a b => a < b ∧ (0.28 : ℚ) < b - a)
        (detectBeats [1, 0, 0, 1, 1, 0] 100 0.15 0.28)) :=
  ⟨by norm_num,
    detectBeats_spec_equiv_and_gaps [1, 0, 0, 1, 1, 0] 100 0.15 0.28 (by norm_num)⟩

-- ── Claim C7 ──

/-- Claim C7 counterexample: the claim says a window ending exactly at
sample `N` is processed (`i + W ≤ N`).  The loop condition
`i < data.length - win` is strict, so on two samples at `sr = 100`
(`W = 2`, `N = 2`) the code processes no window at all and returns no
beats, while the claim-worded enumeration processes window `i = 0` and
emits a beat at `t = 0`. -/
theorem window_boundary_cex :
    detectBeats [1, 1] 100 0.15 0.28 = [] ∧
    detectBeatsClaim [1, 1] 100 0.15 0.28 = [0] := by
  have hW : windowLen 100 = 2 := by rw [windowLen]; norm_num; rfl
  have h1 : windowStarts 2 2 = [] := by decide
  have h2 : windowStartsClaim 2 2 = [0] := by decide
  constructor
  · simp only [detectBeats, hW, List.length_cons, List.length_nil]
    rw [h1]
    rfl
  · simp only [detectBeatsClaim, hW, List.length_cons, List.length_nil]
    rw [h2]
    simp only [List.foldl_cons, List.foldl_nil, beatStep, beatFires, gapPasses,
      energyAt]
    simp [List.range_succ]
    norm_num

theorem list_map_range_sum (f : ℕ → ℚ) (n : ℕ) :
    ((List.range n).map f).sum = ∑ j ∈ Finset.range n, f j := by
  induction n with
  | zero => rfl
  | succ n ih =>
    rw [List.range_succ, List.map_append, List.sum_append,
      Finset.sum_range_succ, ih]
    simp

/-- Every beat in the scan output is the time `i/sr` of one of the
visited window starts. -/
theorem beats_from_windows (data : List ℚ) (sr thr mg : ℚ) (W : ℕ)
    (l : List ℕ) :
    ∀ (st : BeatScanState) (t : ℚ),
      t ∈ (l.foldl (beatStep data sr thr mg W) st).revBeats →
      t ∈ st.revBeats ∨ ∃ i ∈ l, t = (i : ℚ) / sr := by
  induction l with
  | nil => intro st t ht; exact Or.inl ht
  | cons i l ih =>
    intro st t ht
    rw [List.foldl_cons] at ht
    rcases ih _ t ht with hmem | ⟨i2, hi2, ht2⟩
    · by_cases hb : beatFires thr mg st.prev (energyAt data W i) ((i : ℚ) / sr)
          st.revBeats = true
      · have : t ∈ ((i : ℚ) / sr) :: st.revBeats := by
          revert hmem
          show t ∈ (beatStep data sr thr mg W st i).revBeats → _
          rw [beatStep]
          intro hmem
          rw [if_pos hb] at hmem
          exact hmem
        rcases List.mem_cons.mp this with h | h
        · exact Or.inr ⟨i, List.mem_cons_self i l, h⟩
        · exact Or.inl h
      · left
        revert hmem
        show t ∈ (beatStep data sr thr mg W st i).revBeats → _
        rw [beatStep]
        intro hmem
        rw [if_neg hb] at hmem
        exact hmem
    · exact Or.inr ⟨i2, List.mem_cons_of_mem i hi2, ht2⟩

/-- Claim C7 amended: the detector processes exactly the non-overlapping
20 ms windows at starts `i = 0, W, 2W, …` with `i + W < N` — strict, so
a window ending exactly at sample `N` is NOT processed — computing for
each the mean squared energy `(1/W)·Σ_{j=i}^{i+W-1} s[j]²` at time
`t = i/sr`; every emitted beat is the time of such a window. -/
theorem detectBeats_window_enumeration (data : List ℚ) (sr thr mg : ℚ)
    (hW : 0 < windowLen sr) :
    (∀ i, i ∈ windowStarts (windowLen sr) data.length ↔
        windowLen sr ∣ i ∧ i + windowLen sr < data.length) ∧
    (∀ i, i + windowLen sr = data.length →
        i ∉ windowStarts (windowLen sr) data.length) ∧
    (∀ i, energyAt data (windowLen sr) i =
        (∑ j ∈ Finset.range (windowLen sr), data.getD (i + j) 0 ^ 2)
          / (windowLen sr : ℚ)) ∧
    (∀ t ∈ detectBeats data sr thr mg,
        ∃ i ∈ windowStarts (windowLen sr) data.length, t = (i : ℚ) / sr) := by
  have hmem : ∀ i, i ∈ windowStarts (windowLen sr) data.length ↔
      windowLen sr ∣ i ∧ i + windowLen sr < data.length := by
    intro i
    rw [windowStarts, List.mem_filter, List.mem_range]
    rw [decide_eq_true_eq]
    constructor
    · rintro ⟨_, hmod, hlt⟩
      exact ⟨Nat.dvd_iff_mod_eq_zero.mpr hmod, hlt⟩
    · rintro ⟨hdvd, hlt⟩
      exact ⟨by omega, Nat.dvd_iff_mod_eq_zero.mp hdvd, hlt⟩
  refine ⟨hmem, ?_, ?_, ?_⟩
  · intro i hi hin
    have := ((hmem i).mp hin).2
    omega
  · intro i
    rw [energyAt, list_map_range_sum]
    congr 1
    exact Finset.sum_congr rfl (fun j _ => (sq (data.getD (i + j) 0)).symm)
  · intro t ht
    rw [detectBeats, List.mem_reverse] at ht
    rcases beats_from_windows data sr thr mg (windowLen sr)
        (windowStarts (windowLen sr) data.length) ⟨0, []⟩ t ht with h | h
    · cases h
    · exact h

theorem detectBeats_window_enumeration_witness :
    0 < windowLen 50 ∧
    ((∀ i, i ∈ windowStarts (windowLen 50) ([(1 : ℚ), 1, 1]).length ↔
        windowLen 50 ∣ i ∧ i + windowLen 50 < ([(1 : ℚ), 1, 1]).length) ∧
      (∀ i, i + windowLen 50 = ([(1 : ℚ), 1, 1]).length →
        i ∉ windowStarts (windowLen 50) ([(1 : ℚ), 1, 1]).length) ∧
      (∀ i, energyAt [(1 : ℚ), 1, 1] (windowLen 50) i =
        (∑ j ∈ Finset.range (windowLen 50), ([(1 : ℚ), 1, 1]).getD (i + j) 0 ^ 2)
          / (windowLen 50 : ℚ)) ∧
      (∀ t ∈ detectBeats [(1 : ℚ), 1, 1] 50 0.15 0.28,
        ∃ i ∈ windowStarts (windowLen 50) ([(1 : ℚ), 1, 1]).length,
          t = (i : ℚ) / 50)) :=
  ⟨by norm_num [windowLen],
    detectBeats_window_enumeration [(1 : ℚ), 1, 1] 50 0.15 0.28 (by norm_num [windowLen])⟩

end Argon
